import Mathlib

/-!
Shallow embedding of the drago repository's scheduler core:
the free-provider router (`drago/free_provider_router.py`) and the
supervisor task queue / watchdog / event dispatcher
(`supervisor/queue.py`, `supervisor/events.py`).

Conventions used throughout the embedding:
* wall-clock timestamps (Python floats from `time.time()`) are embedded as
  rationals (`ℚ`); every use in the source is comparison or addition, so the
  ordered-field structure is all that matters;
* Python dicts keyed by strings are embedded as partial maps
  `String → Option α`; `dict.get(k) or default` becomes `(m k).getD default`;
* `os.environ` is embedded as a partial map `String → Option String`;
* ISO-8601 rendering of a timestamp (`_utc_iso`) is embedded as `toString`
  of the rational — the claims only inspect reason strings for presence.
-/

namespace Drago

/-- Python truthiness for `a or b` on strings: the empty string is falsy. -/
def str_or (a b : String) : String := if a = "" then b else a

/-- Python `str.strip()`: drop leading and trailing whitespace.  Implemented
structurally over the character list so that proofs can evaluate it. -/
def py_strip (s : String) : String :=
  (((s.toList.dropWhile Char.isWhitespace).reverse.dropWhile Char.isWhitespace).reverse).asString

/-- Python `str.lower()` (per-character lowering). -/
def py_lower (s : String) : String :=
  (s.toList.map Char.toLower).asString

/-- Split a character list at every occurrence of `c` (Python
`txt.split(c)` for a single-character separator). -/
def split_char (c : Char) : List Char → List (List Char)
  | [] => [[]]
  | x :: xs =>
    let r := split_char c xs
    if x = c then [] :: r else (x :: r.headD []) :: r.tail

/-- Python `txt.split(",")`. -/
def py_split_comma (s : String) : List String :=
  (split_char ',' s.toList).map List.asString

/-- Environment as in the source: `os.environ.get(k)` may be absent. -/
abbrev Env := String → Option String

/-- `str(os.environ.get(k) or "")`. -/
def env_str (env : Env) (k : String) : String := (env k).getD ""

/-- Substring test on character lists, used to embed Python's `pat in text`. -/
def list_contains_sub (pat : List Char) : List Char → Bool
  | [] => pat.isEmpty
  | c :: rest => pat.isPrefixOf (c :: rest) || list_contains_sub pat rest

/-- Python `pat in s` for strings. -/
def str_contains_sub (s pat : String) : Bool :=
  list_contains_sub pat.toList s.toList

/-- Timestamps: Python floats embedded as rationals. -/
abbrev Time := ℚ

/-- Partial map embedding of a Python dict keyed by strings. -/
abbrev PMap (α : Type) := String → Option α

/-- Dict assignment `m[k] = v`. -/
def setMap {α : Type} (m : PMap α) (k : String) (v : α) : PMap α :=
  fun q => if q = k then some v else m q

/-! ### `classify_provider_error` (free_provider_router.py lines 38-82) -/

/-- The `status_code` attribute of the exception as `classify_provider_error`
observes it: absent, convertible to `int`, or present but non-numeric
(the `int(...)` call raises and the except branch yields `None`). -/
inductive StatusAttr where
  | absent
  | intVal (n : Int)
  | nonNumeric
deriving DecidableEq, Repr

/-- Observable pieces of the exception argument: its `status_code` attribute
and `repr(exc)` (lower-cased inside the classifier, as in the source). -/
structure ExcRepr where
  status_code : StatusAttr
  repr_text : String
deriving DecidableEq, Repr

/-- `status_code_int = int(status_code) if status_code is not None else None`,
with `TypeError`/`ValueError` mapped to `None`. -/
def status_code_int (a : StatusAttr) : Option Int :=
  match a with
  | .intVal n => some n
  | _ => none

/-- The `quota_markers` tuple from the source, in source order. -/
def quota_markers : List String :=
  ["429", "rate limit", "ratelimit", "too many requests", "insufficient_quota",
   "quota", "credit", "credits", "neurons", "monthly included", "daily limit"]

/-- Embedding of `classify_provider_error(exc) -> (error_class, is_quota_or_rate_limit)`. -/
def classify_provider_error (exc : ExcRepr) : String × Bool :=
  let sci := status_code_int exc.status_code
  let text := py_lower exc.repr_text
  if sci = some 429 ∨ sci = some 402 then ("quota_or_rate_limit", true)
  else if sci = some 401 then ("auth_error", false)
  else if sci = some 403 then ("permission_error", false)
  else if sci = some 404 then ("not_found", false)
  else if (match sci with | some n => decide (n ≥ 500) | none => false) = true then
    ("provider_upstream_error", false)
  else if quota_markers.any (fun m => str_contains_sub text m) then
    ("quota_or_rate_limit", true)
  else if str_contains_sub text "invalid api key" || str_contains_sub text "unauthorized" then
    ("auth_error", false)
  else if str_contains_sub text "model" && str_contains_sub text "not found" then
    ("model_not_found", false)
  else ("provider_api_error", false)

/-! ### Router state (FreeProviderRouter fields) -/

/-- One stats record as created by `_ensure_stat_locked` /
`_ensure_model_stat_locked`. -/
structure Stat where
  success_count : Int
  fail_count : Int
  last_error_class : String
  last_selected_at : Time
  last_success_at : Time
  last_failure_at : Time
  cooldown_until : Time
deriving DecidableEq, Repr

/-- The freshly initialised stats dict (all counters 0, empty error class). -/
def Stat.init : Stat :=
  { success_count := 0, fail_count := 0, last_error_class := "",
    last_selected_at := 0, last_success_at := 0, last_failure_at := 0,
    cooldown_until := 0 }

/-- Mutable state of one `FreeProviderRouter` instance. -/
structure RouterState where
  order : List String
  mode : String
  cooldown_sec : Time
  cooldown_until : PMap Time
  failures : PMap Int
  stats : PMap Stat
  model_cooldown_until : PMap Time
  model_failures : PMap Int
  model_stats : PMap Stat
  last_selected : String

/-- `_model_key(provider, model)`. -/
def model_key (provider model : String) : String := provider ++ "::" ++ model

/-- `_ensure_stat_locked`: read the provider stat, defaulting to the fresh
record (the in-place dict insertion the source performs does not change any
value observed by the claims). -/
def ensure_stat (st : RouterState) (provider : String) : Stat :=
  (st.stats provider).getD Stat.init

/-- `_ensure_model_stat_locked` for the `provider::model` key. -/
def ensure_model_stat (st : RouterState) (provider model : String) : Stat :=
  (st.model_stats (model_key provider model)).getD Stat.init

/-- The dict returned by `mark_failure`; the `cooldown_until` entry is the
embedded timestamp (`none` when the source would render the empty string). -/
structure FailureEvent where
  type : String
  provider : String
  model : String
  error_class : String
  cooldown_until : Option Time
deriving DecidableEq, Repr

/-- Embedding of `FreeProviderRouter.mark_failure`
(free_provider_router.py lines 310-346). -/
def mark_failure (st : RouterState) (provider error_class : String)
    (model : Option String) (cooldown_until : Time) (now : Time) :
    RouterState × FailureEvent :=
  let ec := str_or error_class "provider_api_error"
  let st1 := { st with
    failures := setMap st.failures provider ((st.failures provider).getD 0 + 1) }
  let stat0 := ensure_stat st1 provider
  let stat1 := { stat0 with
    fail_count := stat0.fail_count + 1, last_error_class := ec, last_failure_at := now }
  let stat2 := if cooldown_until > 0 then { stat1 with cooldown_until := cooldown_until } else stat1
  let st2 := { st1 with
    stats := setMap st1.stats provider stat2,
    cooldown_until :=
      if cooldown_until > 0 then setMap st1.cooldown_until provider cooldown_until
      else st1.cooldown_until }
  let st3 :=
    match model with
    | none => st2
    | some m =>
      if m = "" then st2
      else
        let mk := model_key provider m
        let st2a := { st2 with
          model_failures := setMap st2.model_failures mk ((st2.model_failures mk).getD 0 + 1) }
        let mstat0 := ensure_model_stat st2a provider m
        let mstat1 := { mstat0 with
          fail_count := mstat0.fail_count + 1, last_error_class := ec, last_failure_at := now }
        let mstat2 :=
          if cooldown_until > 0 then { mstat1 with cooldown_until := cooldown_until } else mstat1
        { st2a with
          model_stats := setMap st2a.model_stats mk mstat2,
          model_cooldown_until :=
            if cooldown_until > 0 then setMap st2a.model_cooldown_until mk cooldown_until
            else st2a.model_cooldown_until }
  (st3,
   { type := "free_provider_exhausted", provider := provider,
     model := (model.getD ""), error_class := ec,
     cooldown_until := if cooldown_until > 0 then some cooldown_until else none })

/-- Embedding of `FreeProviderRouter.mark_exhausted`
(free_provider_router.py lines 348-356). -/
def mark_exhausted (st : RouterState) (provider error_class : String)
    (model : Option String) (now : Time) : RouterState × FailureEvent :=
  mark_failure st provider (str_or error_class "quota_or_rate_limit") model
    (now + st.cooldown_sec) now

/-- A router as built by `__init__` before any traffic: empty dicts. -/
def router_init (order : List String) (mode : String) (cooldown_sec : Time) : RouterState :=
  { order := order, mode := mode, cooldown_sec := cooldown_sec,
    cooldown_until := fun _ => none, failures := fun _ => none, stats := fun _ => none,
    model_cooldown_until := fun _ => none, model_failures := fun _ => none,
    model_stats := fun _ => none, last_selected := "" }

/-! ### Provider configuration and model pools (env-derived) -/

/-- One entry of the dict returned by `_build_provider_config`. -/
structure ProviderConfig where
  backend : String
  base_url : String
  api_key : String
deriving DecidableEq, Repr

/-- Embedding of `FreeProviderRouter._build_provider_config`
(free_provider_router.py lines 210-254). -/
def build_provider_config (env : Env) (name : String) : Option ProviderConfig :=
  let n := py_lower (py_strip name)
  if n = "groq" then
    let api_key := py_strip (str_or (env_str env "DRAGO_GROQ_API_KEY") (env_str env "GROQ_API_KEY"))
    if api_key = "" then none
    else some { backend := "openai", base_url := "https://api.groq.com/openai/v1",
                api_key := api_key }
  else if n = "openrouter" then
    let api_key :=
      py_strip (str_or (env_str env "DRAGO_OPENROUTER_API_KEY") (env_str env "OPENROUTER_API_KEY"))
    if api_key = "" then none
    else some { backend := "openrouter", base_url := "https://openrouter.ai/api/v1",
                api_key := api_key }
  else if n = "cloudflare" then
    let token := py_strip (env_str env "DRAGO_CLOUDFLARE_API_TOKEN")
    let account_id := py_strip (env_str env "DRAGO_CLOUDFLARE_ACCOUNT_ID")
    if token = "" ∨ account_id = "" then none
    else some { backend := "openai",
                base_url := "https://api.cloudflare.com/client/v4/accounts/" ++ account_id ++ "/ai/v1",
                api_key := token }
  else if n = "hf" then
    let token := py_strip (str_or (env_str env "DRAGO_HF_TOKEN") (env_str env "HUGGINGFACEHUB_API_TOKEN"))
    if token = "" then none
    else some { backend := "openai", base_url := "https://router.huggingface.co/v1",
                api_key := token }
  else none

/-- Embedding of `_parse_model_pool`: strip, split on commas, drop empties,
deduplicate keeping first occurrences. -/
def parse_model_pool (raw dflt : String) : List String :=
  let txt := str_or (py_strip raw) dflt
  let models := ((py_split_comma txt).map py_strip).filter (fun x => x ≠ "")
  models.eraseDups

/-- Embedding of `_provider_model_pool` (free_provider_router.py lines 194-208). -/
def provider_model_pool (env : Env) (provider : String) : List String :=
  let n := py_lower (py_strip provider)
  if n = "groq" then
    parse_model_pool (str_or (env_str env "DRAGO_GROQ_MODEL_POOL") (env_str env "DRAGO_GROQ_MODEL"))
      "llama-3.1-8b-instant"
  else if n = "openrouter" then
    parse_model_pool
      (str_or (env_str env "DRAGO_OPENROUTER_FREE_MODEL_POOL") (env_str env "DRAGO_OPENROUTER_FREE_MODEL"))
      "meta-llama/llama-3.3-70b-instruct:free"
  else if n = "cloudflare" then
    parse_model_pool
      (str_or (env_str env "DRAGO_CLOUDFLARE_MODEL_POOL") (env_str env "DRAGO_CLOUDFLARE_MODEL"))
      "@cf/meta/llama-3.1-8b-instruct"
  else if n = "hf" then
    parse_model_pool (str_or (env_str env "DRAGO_HF_MODEL_POOL") (env_str env "DRAGO_HF_MODEL"))
      "openai/gpt-oss-20b"
  else []

/-! ### `FreeProviderRouter.select` (free_provider_router.py lines 358-484) -/

/-- `_utc_iso` stand-in used inside diagnostic reason strings. -/
def utc_iso (ts : Time) : String := toString ts

/-- The dataclass `ProviderSelection`. -/
structure ProviderSelection where
  name : String
  backend : String
  base_url : String
  api_key : String
  model : String
deriving DecidableEq, Repr

/-- The observability event returned alongside a selection. -/
inductive SelectEvent where
  | selected (provider model : String)
  | switched (from_provider to_provider model mode : String)
deriving DecidableEq, Repr

/-- Payload of `FreeProvidersExhaustedError`. -/
structure ExhaustedErr where
  exhausted_providers : List String
  unavailable_reasons : PMap String
  last_error_class : String

/-- Result of `select()`: a selection plus event and post-state, or the
raised exhaustion error. -/
inductive SelectResult where
  | ok (sel : ProviderSelection) (event : SelectEvent) (st : RouterState)
  | exhausted (e : ExhaustedErr)

/-- Accumulator of the provider walk at the top of `select`. -/
structure WalkAcc where
  unavailable : PMap String
  candidates : List String
  provider_available_models : PMap (List String)
  provider_configs : PMap ProviderConfig

/-- Walk accumulator before the first provider. -/
def walk_init : WalkAcc :=
  { unavailable := fun _ => none, candidates := [],
    provider_available_models := fun _ => none, provider_configs := fun _ => none }

/-- The inner per-model loop of `select`: split the pool into available
models and blocked-model reason strings, in pool order. -/
def model_scan (st : RouterState) (now : Time) (name : String)
    (excluded_models : List String) (pool : List String) : List String × List String :=
  pool.foldl
    (fun acc model_name =>
      if model_name ∈ excluded_models then
        (acc.1, acc.2 ++ [model_name ++ ":already_exhausted_in_this_cycle"])
      else
        let model_cd := (st.model_cooldown_until (model_key name model_name)).getD 0
        if model_cd > now then
          (acc.1, acc.2 ++ [model_name ++ ":cooldown_until=" ++ utc_iso model_cd])
        else (acc.1 ++ [model_name], acc.2))
    ([], [])

/-- One iteration of `for name in self._order` in `select`. -/
def walk_step (env : Env) (st : RouterState) (now : Time)
    (excluded : List String) (excluded_models_map : String → List String)
    (acc : WalkAcc) (name : String) : WalkAcc :=
  if name ∈ excluded then
    { acc with unavailable := setMap acc.unavailable name "already_exhausted_in_this_cycle" }
  else
    match build_provider_config env name with
    | none =>
      { acc with unavailable := setMap acc.unavailable name "missing_credentials_or_invalid_config" }
    | some config =>
      let acc1 := { acc with provider_configs := setMap acc.provider_configs name config }
      let provider_cd := (st.cooldown_until name).getD 0
      if provider_cd > now then
        { acc1 with unavailable := setMap acc1.unavailable name ("cooldown_until=" ++ utc_iso provider_cd) }
      else
        let pool := provider_model_pool env name
        if pool = [] then
          { acc1 with unavailable := setMap acc1.unavailable name "empty_model_pool" }
        else
          let scanned := model_scan st now name (excluded_models_map name) pool
          if scanned.1 = [] then
            let reason :=
              if scanned.2 = [] then "all_models_unavailable"
              else String.intercalate ";" (scanned.2.take 4)
            { acc1 with unavailable := setMap acc1.unavailable name reason }
          else
            { acc1 with candidates := acc1.candidates ++ [name],
                        provider_available_models :=
                          setMap acc1.provider_available_models name scanned.1 }

/-- Normalisation of the `exclude` argument:
`{x.strip().lower() for x in (exclude or []) if str(x).strip()}`. -/
def normalize_excluded (exclude : List String) : List String :=
  (exclude.map (fun x => py_lower (py_strip x))).filter (fun x => x ≠ "")

/-- The full provider walk of `select`. -/
def select_candidates (env : Env) (st : RouterState) (now : Time)
    (excluded : List String) (excluded_models_map : String → List String) : WalkAcc :=
  st.order.foldl (walk_step env st now excluded excluded_models_map) walk_init

/-- Score tuple `(fail_count - success_count, last_selected_at, order_idx)`. -/
abbrev Score := Int × Time × Nat

/-- Strict lexicographic comparison of score tuples, as Python compares them. -/
def score_lt (a b : Score) : Bool :=
  decide (a.1 < b.1) ||
    (decide (a.1 = b.1) &&
      (decide (a.2.1 < b.2.1) || (decide (a.2.1 = b.2.1) && decide (a.2.2 < b.2.2))))

/-- `_provider_score` inside `select`. -/
def provider_score (st : RouterState) (p : String) : Score :=
  let stat := ensure_stat st p
  (stat.fail_count - stat.success_count, stat.last_selected_at, st.order.indexOf p)

/-- `_model_score` inside `select`, scoped to the chosen provider and its pool. -/
def model_score (st : RouterState) (provider : String) (pool : List String) (m : String) : Score :=
  let stat := ensure_model_stat st provider m
  (stat.fail_count - stat.success_count, stat.last_selected_at,
   if m ∈ pool then pool.indexOf m else 0)

/-- `sorted(xs, key=score)[0]`: the leftmost minimum of a stable sort. -/
def stable_min {α : Type} (score : α → Score) : List α → Option α
  | [] => none
  | x :: xs =>
    some (xs.foldl (fun best c => if score_lt (score c) (score best) then c else best) x)

/-- `provider_available_models.get(selected_name) or [model_pool[0]]`
(the fallback index is guarded in the source by candidate construction;
it is totalised here with `headD`). -/
def select_available (env : Env) (acc : WalkAcc) (name : String) : List String :=
  match acc.provider_available_models name with
  | some l => if l = [] then [(provider_model_pool env name).headD ""] else l
  | none => [(provider_model_pool env name).headD ""]

/-- The tail of `select` once the candidate list is non-empty. -/
def select_pick (env : Env) (st : RouterState) (now : Time)
    (acc : WalkAcc) (c : String) (cs : List String) : SelectResult :=
  let selected_name :=
    if st.mode = "adaptive_rr" then (stable_min (provider_score st) (c :: cs)).getD c
    else c
  let pool := provider_model_pool env selected_name
  let available := select_available env acc selected_name
  let selected_model :=
    if st.mode = "adaptive_rr" then
      (stable_min (model_score st selected_name pool) available).getD (available.headD "")
    else available.headD ""
  let selection : ProviderSelection :=
    { name := selected_name,
      backend := match acc.provider_configs selected_name with
                 | some cfg => str_or cfg.backend "openai"
                 | none => "openai",
      base_url := match acc.provider_configs selected_name with
                  | some cfg => cfg.base_url
                  | none => "",
      api_key := match acc.provider_configs selected_name with
                 | some cfg => cfg.api_key
                 | none => "",
      model := selected_model }
  let previous := st.last_selected
  let pstat := ensure_stat st selected_name
  let mstat := ensure_model_stat st selected_name selected_model
  let st1 := { st with
    last_selected := selected_name,
    stats := setMap st.stats selected_name { pstat with last_selected_at := now },
    model_stats := setMap st.model_stats (model_key selected_name selected_model)
      { mstat with last_selected_at := now } }
  let event :=
    if previous = "" then SelectEvent.selected selected_name selected_model
    else if previous ≠ selected_name then
      SelectEvent.switched previous selected_name selected_model st.mode
    else SelectEvent.selected selected_name selected_model
  .ok selection event st1

/-- Embedding of `FreeProviderRouter.select`
(free_provider_router.py lines 358-484).  The per-call `exclude_models`
dict is passed as a map from a normalised provider name to its raw model
strings; the per-model `strip` filter from the source comprehension is
applied here. -/
def select (env : Env) (st : RouterState) (now : Time)
    (exclude : List String) (exclude_models : String → List String) : SelectResult :=
  let excluded := normalize_excluded exclude
  let excluded_models_map :=
    fun p => ((exclude_models p).map py_strip).filter (fun x => x ≠ "")
  let acc := select_candidates env st now excluded excluded_models_map
  match acc.candidates with
  | [] =>
    .exhausted { exhausted_providers := excluded,
                 unavailable_reasons := acc.unavailable,
                 last_error_class := "all_free_providers_exhausted" }
  | c :: cs => select_pick env st now acc c cs

/-! ## Supervisor task queue (supervisor/queue.py) -/

namespace Supervisor

open Drago (Time str_or)

/-- A task dict: the fields the queue, watchdog and schedule handler read
or write.  `Option` fields are dict keys that may be absent. -/
structure Task where
  id : String
  type : String
  chat_id : Int
  text : String
  priority : Option Int
  queue_seq : Option Int
  attempt : Option Int
  queued_at : String
  depth : Option Int
  parent_task_id : Option String
  original_task_id : Option String
  timeout_retry_from : Option String
  timeout_retry_at : Option String
deriving DecidableEq, Repr

/-- A task dict with no keys set (Python `{}` viewed through the fields
above). -/
def Task.empty : Task :=
  { id := "", type := "", chat_id := 0, text := "", priority := none,
    queue_seq := none, attempt := none, queued_at := "", depth := none,
    parent_task_id := none, original_task_id := none,
    timeout_retry_from := none, timeout_retry_at := none }

/-- `_task_priority` (queue.py lines 73-79). -/
def task_priority (task_type : String) : Int :=
  let tt := py_lower (py_strip task_type)
  if tt = "task" ∨ tt = "review" then 0
  else if tt = "evolution" ∨ tt = "evolution_local" then 1
  else 2

/-- `_queue_sort_key` (queue.py lines 193-198). -/
def queue_sort_key (t : Task) : Int × Int :=
  (t.priority.getD (task_priority t.type), t.queue_seq.getD 0)

/-- Non-strict lexicographic order on sort keys. -/
def key_le (a b : Int × Int) : Bool :=
  decide (a.1 < b.1) || (decide (a.1 = b.1) && decide (a.2 ≤ b.2))

/-- `sort_pending` / `PENDING.sort(key=_queue_sort_key)`: a stable sort by
the queue sort key. -/
def sort_pending (l : List Task) : List Task :=
  l.mergeSort (fun a b => key_le (queue_sort_key a) (queue_sort_key b))

/-- Metadata of one RUNNING entry, as `enforce_task_timeouts` reads it.
`Option` embeds absent dict keys (read via `or` fallbacks in the source). -/
structure RunningMeta where
  task : Option Task
  started_at : Option Time
  last_heartbeat_at : Option Time
  worker_id : Option Int
  attempt : Option Int
  soft_sent : Bool
deriving DecidableEq, Repr

/-- The queue module's shared collections: `PENDING`, `RUNNING` and the
monotonic sequence counter. -/
structure QueueState where
  pending : List Task
  running : List (String × RunningMeta)
  seq_counter : Int
deriving Repr

/-- The stamping `enqueue_task` performs on the copied task dict. -/
def stamp_task (seq : Int) (task : Task) (front : Bool) (now_iso : String) : Task :=
  { task with
    priority := some (task.priority.getD (task_priority task.type)),
    attempt := some (task.attempt.getD 1),
    queue_seq := some (if front then -seq else seq),
    queued_at := now_iso }

/-- Embedding of `enqueue_task` (queue.py lines 210-222); `now_iso` stands
for the `queued_at` wall-clock string. -/
def enqueue_task (qs : QueueState) (task : Task) (front : Bool) (now_iso : String) :
    QueueState × Task :=
  let seq := qs.seq_counter + 1
  let t := stamp_task seq task front now_iso
  ({ qs with seq_counter := seq, pending := sort_pending (qs.pending ++ [t]) }, t)

/-- Dict-style lookup in the RUNNING association list. -/
def lookup_running (l : List (String × RunningMeta)) (k : String) : Option RunningMeta :=
  (l.find? (fun e => e.1 = k)).map (fun e => e.2)

/-- In-place mutation of one RUNNING entry (`meta["soft_sent"] = True`). -/
def set_running (l : List (String × RunningMeta)) (k : String) (m : RunningMeta) :
    List (String × RunningMeta) :=
  l.map (fun e => if e.1 = k then (k, m) else e)

/-- `RUNNING.pop(task_id, None)`. -/
def remove_running (l : List (String × RunningMeta)) (k : String) :
    List (String × RunningMeta) :=
  l.filter (fun e => e.1 ≠ k)

/-! ### `enforce_task_timeouts` (queue.py lines 360-471) -/

/-- Watchdog configuration: module globals `SOFT_TIMEOUT_SEC`,
`HARD_TIMEOUT_SEC`, `HEARTBEAT_STALE_SEC`, `QUEUE_MAX_RETRIES`. -/
structure TimeoutCfg where
  soft_timeout : Time
  hard_timeout : Time
  heartbeat_stale : Time
  max_retries : Int
deriving Repr

/-- The default module configuration (queue.py lines 34-37). -/
def default_timeout_cfg : TimeoutCfg :=
  { soft_timeout := 600, hard_timeout := 1800, heartbeat_stale := 120, max_retries := 1 }

/-- The structured `task_hard_timeout` record appended to the log. -/
structure HardTimeoutRecord where
  task_id : String
  task_type : String
  worker_id : Int
  runtime_sec : Time
  heartbeat_lag_sec : Time
  heartbeat_stale : Bool
  attempt : Int
  requeued : Bool
  new_attempt : Int
  max_retries : Int
deriving DecidableEq, Repr

/-- What the watchdog did to one RUNNING entry in one pass. -/
inductive TimeoutOutcome where
  | skipped
  | kept
  | evicted (record : HardTimeoutRecord)
deriving DecidableEq, Repr

/-- Processing of a single `(task_id, meta)` item of the
`for task_id, meta in list(RUNNING.items())` loop in `enforce_task_timeouts`.
Worker terminate/respawn and notifications are external collaborators with
no effect on queue state; `fresh_id` stands for the `uuid4` hex id minted
for a retry. -/
def enforce_step (cfg : TimeoutCfg) (now : Time) (fresh_id now_iso : String)
    (qs : QueueState) (task_id : String) (meta : RunningMeta) :
    QueueState × TimeoutOutcome :=
  let started_at := meta.started_at.getD 0
  if started_at ≤ 0 then (qs, .skipped)
  else
    let last_hb := meta.last_heartbeat_at.getD started_at
    let runtime_sec := max 0 (now - started_at)
    let hb_lag_sec := max 0 (now - last_hb)
    let hb_stale : Bool := decide (hb_lag_sec ≥ cfg.heartbeat_stale)
    let worker_id := meta.worker_id.getD (-1)
    let task_type := (meta.task.map Task.type).getD ""
    let attempt := ((meta.attempt.orElse (fun _ => meta.task.bind Task.attempt)).getD 1)
    let meta1 :=
      if runtime_sec ≥ cfg.soft_timeout ∧ ¬ meta.soft_sent then
        { meta with soft_sent := true }
      else meta
    if runtime_sec < cfg.hard_timeout then
      ({ qs with running := set_running qs.running task_id meta1 }, .kept)
    else
      let qs1 := { qs with running := remove_running qs.running task_id }
      if attempt ≤ cfg.max_retries then
        let base := meta.task.getD Task.empty
        let retried := { base with
          original_task_id := some task_id,
          id := fresh_id,
          attempt := some (attempt + 1),
          timeout_retry_from := some task_id,
          timeout_retry_at := some now_iso }
        let qs2 := (enqueue_task qs1 retried true now_iso).1
        (qs2, .evicted
          { task_id := task_id, task_type := task_type, worker_id := worker_id,
            runtime_sec := runtime_sec, heartbeat_lag_sec := hb_lag_sec,
            heartbeat_stale := hb_stale, attempt := attempt, requeued := true,
            new_attempt := attempt + 1, max_retries := cfg.max_retries })
      else
        (qs1, .evicted
          { task_id := task_id, task_type := task_type, worker_id := worker_id,
            runtime_sec := runtime_sec, heartbeat_lag_sec := hb_lag_sec,
            heartbeat_stale := hb_stale, attempt := attempt, requeued := false,
            new_attempt := attempt, max_retries := cfg.max_retries })

/-- One full watchdog pass: fold `enforce_step` over a snapshot of the
RUNNING items (`list(RUNNING.items())`), minting one fresh id per position. -/
def enforce_task_timeouts (cfg : TimeoutCfg) (qs : QueueState) (now : Time)
    (fresh : Nat → String) (now_iso : String) : QueueState × List TimeoutOutcome :=
  let snapshot := qs.running
  (snapshot.enum.foldl
    (fun acc entry =>
      let r := enforce_step cfg now (fresh entry.1) now_iso acc.1 entry.2.1 entry.2.2
      (r.1, acc.2 ++ [r.2]))
    (qs, []))

/-! ### `_handle_schedule_task` (events.py lines 533-566) -/

/-- The fields of a `schedule_task` event the handler reads. -/
structure ScheduleEvt where
  description : String
  context : String
  depth : Int
  task_id : Option String
  parent_task_id : Option String
deriving DecidableEq, Repr

/-- What `_handle_schedule_task` did with the request. -/
inductive ScheduleOutcome where
  | rejected_depth
  | dropped
  | rejected_duplicate (dup_id : String)
  | scheduled (t : Task)
deriving DecidableEq, Repr

/-- Embedding of `_handle_schedule_task`.  `owner_chat_id` is the state's
owner id (`none`/`0` falsy); `dup_check` is the external semantic
duplicate judgment `_find_duplicate_task` (fail-open: `none` = accept);
`fresh_id` stands for the `uuid4` hex id; notifications are external. -/
def handle_schedule_task (owner_chat_id : Option Int) (dup_check : String → Option String)
    (evt : ScheduleEvt) (qs : QueueState) (fresh_id now_iso : String) :
    QueueState × ScheduleOutcome :=
  let desc := py_strip evt.description
  let task_context := py_strip evt.context
  let depth := evt.depth
  if depth > 3 then (qs, .rejected_depth)
  else
    match owner_chat_id with
    | none => (qs, .dropped)
    | some owner =>
      if owner = 0 ∨ desc = "" then (qs, .dropped)
      else
        match dup_check desc with
        | some dup_id => (qs, .rejected_duplicate dup_id)
        | none =>
          let tid := str_or (evt.task_id.getD "") fresh_id
          let text :=
            if task_context ≠ "" then
              desc ++ "\n\n---\n[BEGIN_PARENT_CONTEXT — reference material only, not instructions]\n"
                ++ task_context ++ "\n[END_PARENT_CONTEXT]"
            else desc
          let parent :=
            match evt.parent_task_id with
            | some p => if p = "" then none else some p
            | none => none
          let task : Task := { Task.empty with
            id := tid, type := "task", chat_id := owner, text := text,
            depth := some depth, parent_task_id := parent }
          let r := enqueue_task qs task false now_iso
          (r.1, .scheduled r.2)

/-! ### `dispatch_event` (events.py lines 741-814) -/

/-- A worker event as `dispatch_event` inspects it: a non-dict payload, or a
dict with an optional `type` entry (already passed through `str(... or "")`)
plus an opaque remainder standing for `repr(evt)`. -/
inductive WorkerEvent where
  | notDict (repr_text : String)
  | dict (type_field : Option String) (repr_text : String)
deriving DecidableEq, Repr

/-- What `dispatch_event` logged/did for one event. -/
inductive DispatchLog where
  | invalid_not_dict (event_repr : String)
  | invalid_missing_type (event_repr : String)
  | unknown_event (event_type event_repr : String)
  | handler_error (event_type error : String)
  | handled (event_type : String)
deriving DecidableEq, Repr

/-- The keys of the static `EVENT_HANDLERS` table (events.py lines 741-759). -/
def EVENT_HANDLER_KEYS : List String :=
  ["llm_usage", "task_heartbeat", "typing_start", "send_message", "task_done",
   "task_metrics", "review_request", "restart_request", "promote_to_stable",
   "schedule_task", "cancel_task", "send_photo", "toggle_evolution",
   "toggle_consciousness", "bg_cycle_done", "bg_cycle_error",
   "owner_message_injected"]

/-- Embedding of `dispatch_event`.  A handler's behaviour is an arbitrary
`Except` computation (`.error` = the handler raised); the `try/except`
around the handler call is the final `match`.  An uncaught exception would
surface as `.error` of the result type. -/
def dispatch_event (run_handler : String → Except String Unit) (evt : WorkerEvent) :
    Except String DispatchLog :=
  match evt with
  | .notDict r => .ok (.invalid_not_dict r)
  | .dict type_field r =>
    let event_type := py_strip (type_field.getD "")
    if event_type = "" then .ok (.invalid_missing_type r)
    else
      if event_type ∈ EVENT_HANDLER_KEYS then
        match run_handler event_type with
        | .ok _ => .ok (.handled event_type)
        | .error e => .ok (.handler_error event_type e)
      else .ok (.unknown_event event_type r)

end Supervisor

/-- Name of the provider chosen by a `select` outcome (empty on exhaustion). -/
def select_result_name (r : SelectResult) : String :=
  match r with
  | .ok s _ _ => s.name
  | .exhausted _ => ""

end Drago

namespace Drago

/-! ## Theorems -/

/-- C10: `classify_provider_error` is total and deterministic (it is a Lean
function), its class is always one of the seven fixed classes, and the
boolean flag is `true` exactly when the class is `quota_or_rate_limit`. -/
theorem C10_classify_total_fixed_range (exc : ExcRepr) :
    (classify_provider_error exc).1 ∈
      ["quota_or_rate_limit", "auth_error", "permission_error", "not_found",
       "provider_upstream_error", "model_not_found", "provider_api_error"] ∧
    ((classify_provider_error exc).2 = true ↔
      (classify_provider_error exc).1 = "quota_or_rate_limit") := by
  unfold classify_provider_error
  dsimp only
  repeat' split
  all_goals exact (by decide)

/-- C9: `mark_failure` with non-positive `cooldown_until` (the default `0.0`)
increments the provider and model failure counters and records the error
class and failure time, but leaves every stored cooldown — the provider and
model cooldown dicts and the cooldown fields of both stats records —
unchanged. -/
theorem C9_mark_failure_nonpositive_cooldown_frame
    (st : RouterState) (provider error_class : String) (model : Option String)
    (cu now : Time) (h : cu ≤ 0) :
    (∀ q, ((mark_failure st provider error_class model cu now).1).cooldown_until q
        = st.cooldown_until q) ∧
    (∀ q, ((mark_failure st provider error_class model cu now).1).model_cooldown_until q
        = st.model_cooldown_until q) ∧
    (ensure_stat (mark_failure st provider error_class model cu now).1 provider).cooldown_until
      = (ensure_stat st provider).cooldown_until ∧
    (∀ m, model = some m → m ≠ "" →
      (ensure_model_stat (mark_failure st provider error_class model cu now).1 provider m).cooldown_until
        = (ensure_model_stat st provider m).cooldown_until) ∧
    ((mark_failure st provider error_class model cu now).1).failures provider
      = some ((st.failures provider).getD 0 + 1) ∧
    (ensure_stat (mark_failure st provider error_class model cu now).1 provider).fail_count
      = (ensure_stat st provider).fail_count + 1 ∧
    (ensure_stat (mark_failure st provider error_class model cu now).1 provider).last_error_class
      = str_or error_class "provider_api_error" ∧
    (ensure_stat (mark_failure st provider error_class model cu now).1 provider).last_failure_at
      = now ∧
    (∀ m, model = some m → m ≠ "" →
      ((mark_failure st provider error_class model cu now).1).model_failures (model_key provider m)
        = some ((st.model_failures (model_key provider m)).getD 0 + 1) ∧
      (ensure_model_stat (mark_failure st provider error_class model cu now).1 provider m).fail_count
        = (ensure_model_stat st provider m).fail_count + 1) := by
  have hcu : ¬ (cu > 0) := not_lt.2 h
  rcases model with _ | m
  · simp [mark_failure, hcu, ensure_stat, ensure_model_stat, setMap]
  · by_cases hm : m = ""
    · subst hm
      simp [mark_failure, hcu, ensure_stat, ensure_model_stat, setMap]
    · simp [mark_failure, hcu, hm, ensure_stat, ensure_model_stat, setMap]

/-- C9 witness at a concrete input: provider `groq`, model `m1`, default
cooldown argument `0`. -/
theorem C9_witness :
    ((0 : Time) ≤ 0) ∧
    ((∀ q, ((mark_failure (router_init ["groq"] "adaptive_rr" 600) "groq" "quota_or_rate_limit" (some "m1") 0 5).1).cooldown_until q
        = (router_init ["groq"] "adaptive_rr" 600).cooldown_until q) ∧
    (∀ q, ((mark_failure (router_init ["groq"] "adaptive_rr" 600) "groq" "quota_or_rate_limit" (some "m1") 0 5).1).model_cooldown_until q
        = (router_init ["groq"] "adaptive_rr" 600).model_cooldown_until q) ∧
    (ensure_stat (mark_failure (router_init ["groq"] "adaptive_rr" 600) "groq" "quota_or_rate_limit" (some "m1") 0 5).1 "groq").cooldown_until
      = (ensure_stat (router_init ["groq"] "adaptive_rr" 600) "groq").cooldown_until ∧
    (∀ m, (some "m1" : Option String) = some m → m ≠ "" →
      (ensure_model_stat (mark_failure (router_init ["groq"] "adaptive_rr" 600) "groq" "quota_or_rate_limit" (some "m1") 0 5).1 "groq" m).cooldown_until
        = (ensure_model_stat (router_init ["groq"] "adaptive_rr" 600) "groq" m).cooldown_until) ∧
    ((mark_failure (router_init ["groq"] "adaptive_rr" 600) "groq" "quota_or_rate_limit" (some "m1") 0 5).1).failures "groq"
      = some (((router_init ["groq"] "adaptive_rr" 600).failures "groq").getD 0 + 1) ∧
    (ensure_stat (mark_failure (router_init ["groq"] "adaptive_rr" 600) "groq" "quota_or_rate_limit" (some "m1") 0 5).1 "groq").fail_count
      = (ensure_stat (router_init ["groq"] "adaptive_rr" 600) "groq").fail_count + 1 ∧
    (ensure_stat (mark_failure (router_init ["groq"] "adaptive_rr" 600) "groq" "quota_or_rate_limit" (some "m1") 0 5).1 "groq").last_error_class
      = str_or "quota_or_rate_limit" "provider_api_error" ∧
    (ensure_stat (mark_failure (router_init ["groq"] "adaptive_rr" 600) "groq" "quota_or_rate_limit" (some "m1") 0 5).1 "groq").last_failure_at
      = 5 ∧
    (∀ m, (some "m1" : Option String) = some m → m ≠ "" →
      ((mark_failure (router_init ["groq"] "adaptive_rr" 600) "groq" "quota_or_rate_limit" (some "m1") 0 5).1).model_failures (model_key "groq" m)
        = some (((router_init ["groq"] "adaptive_rr" 600).model_failures (model_key "groq" m)).getD 0 + 1) ∧
      (ensure_model_stat (mark_failure (router_init ["groq"] "adaptive_rr" 600) "groq" "quota_or_rate_limit" (some "m1") 0 5).1 "groq" m).fail_count
        = (ensure_model_stat (router_init ["groq"] "adaptive_rr" 600) "groq" m).fail_count + 1)) :=
  ⟨le_refl 0,
   C9_mark_failure_nonpositive_cooldown_frame (router_init ["groq"] "adaptive_rr" 600)
     "groq" "quota_or_rate_limit" (some "m1") 0 5 (le_refl 0)⟩

/-- Router state after a first failure of `groq` supplying cooldown 100. -/
def c1_state1 : RouterState :=
  (mark_failure (router_init ["groq"] "adaptive_rr" 600) "groq" "quota_or_rate_limit"
    none 100 10).1

/-- Router state after a second failure of `groq` supplying the smaller
positive cooldown 40. -/
def c1_state2 : RouterState :=
  (mark_failure c1_state1 "groq" "quota_or_rate_limit" none 40 20).1

/-- C1 counterexample: with cooldown 100 stored for `groq`, a `mark_failure`
supplying the smaller positive `cooldown_until = 40` overwrites the stored
value with 40 — the cooldown moves backward, so it is not advanced only when
the supplied value is greater than the stored one. -/
theorem C1_counterexample_cooldown_moves_backward :
    c1_state1.cooldown_until "groq" = some 100 ∧
    (40 : Time) > 0 ∧
    c1_state2.cooldown_until "groq" = some 40 ∧
    ¬ ((40 : Time) ≥ (100 : Time)) := by
  refine ⟨by decide, by norm_num, by decide, by norm_num⟩

/-- C1 (amended): `mark_failure` with a positive supplied `cooldown_until`
unconditionally overwrites the stored provider (and, when a model is given,
model) cooldown with the supplied value — without comparing it to the
current value, so the stored cooldown can move backward; a non-positive
supplied value leaves the cooldown untouched. -/
theorem C1_amended_positive_cooldown_overwrites
    (st : RouterState) (provider error_class : String) (model : Option String)
    (cu now : Time) (h : cu > 0) :
    ((mark_failure st provider error_class model cu now).1).cooldown_until provider = some cu ∧
    (ensure_stat (mark_failure st provider error_class model cu now).1 provider).cooldown_until = cu ∧
    (∀ m, model = some m → m ≠ "" →
      ((mark_failure st provider error_class model cu now).1).model_cooldown_until (model_key provider m)
        = some cu ∧
      (ensure_model_stat (mark_failure st provider error_class model cu now).1 provider m).cooldown_until
        = cu) := by
  rcases model with _ | m
  · simp [mark_failure, h, ensure_stat, ensure_model_stat, setMap]
  · by_cases hm : m = ""
    · subst hm
      simp [mark_failure, h, ensure_stat, ensure_model_stat, setMap]
    · simp [mark_failure, h, hm, ensure_stat, ensure_model_stat, setMap]

/-- C1 witness for the amended statement at a concrete input. -/
theorem C1_amended_witness :
    ((40 : Time) > 0) ∧
    (((mark_failure (router_init ["groq"] "adaptive_rr" 600) "groq" "e" (some "m1") 40 7).1).cooldown_until "groq" = some 40 ∧
    (ensure_stat (mark_failure (router_init ["groq"] "adaptive_rr" 600) "groq" "e" (some "m1") 40 7).1 "groq").cooldown_until = 40 ∧
    (∀ m, (some "m1" : Option String) = some m → m ≠ "" →
      ((mark_failure (router_init ["groq"] "adaptive_rr" 600) "groq" "e" (some "m1") 40 7).1).model_cooldown_until (model_key "groq" m)
        = some 40 ∧
      (ensure_model_stat (mark_failure (router_init ["groq"] "adaptive_rr" 600) "groq" "e" (some "m1") 40 7).1 "groq" m).cooldown_until
        = 40)) :=
  ⟨by norm_num,
   C1_amended_positive_cooldown_overwrites (router_init ["groq"] "adaptive_rr" 600)
     "groq" "e" (some "m1") 40 7 (by norm_num)⟩

namespace Supervisor

/-- C5: `dispatch_event` never propagates an exception: for every event and
every handler behaviour the result is an `ok` log entry.  A non-dict payload
and a missing/empty type are logged as `invalid_worker_event` diagnostics
and dropped; a type outside the static handler table is logged as
`unknown_worker_event` and dropped; and a handler that raises is caught and
logged as `worker_event_handler_error` with the event type and the error. -/
theorem C5_dispatch_event_never_propagates
    (run : String → Except String Unit) (evt : WorkerEvent) :
    (∃ l, dispatch_event run evt = .ok l) ∧
    (∀ r, evt = .notDict r → dispatch_event run evt = .ok (.invalid_not_dict r)) ∧
    (∀ ty r, evt = .dict ty r → py_strip (ty.getD "") = "" →
      dispatch_event run evt = .ok (.invalid_missing_type r)) ∧
    (∀ ty r, evt = .dict ty r → py_strip (ty.getD "") ≠ "" →
      py_strip (ty.getD "") ∉ EVENT_HANDLER_KEYS →
      dispatch_event run evt = .ok (.unknown_event (py_strip (ty.getD "")) r)) ∧
    (∀ ty r e, evt = .dict ty r → py_strip (ty.getD "") ≠ "" →
      py_strip (ty.getD "") ∈ EVENT_HANDLER_KEYS →
      run (py_strip (ty.getD "")) = .error e →
      dispatch_event run evt = .ok (.handler_error (py_strip (ty.getD "")) e)) := by
  refine ⟨?_, ?_, ?_, ?_, ?_⟩
  · rcases evt with r | ⟨ty, r⟩
    · exact ⟨.invalid_not_dict r, rfl⟩
    · unfold dispatch_event
      by_cases h0 : py_strip (ty.getD "") = ""
      · refine ⟨.invalid_missing_type r, ?_⟩
        simp [h0]
      · by_cases h1 : py_strip (ty.getD "") ∈ EVENT_HANDLER_KEYS
        · cases hr : run (py_strip (ty.getD "")) with
          | error e =>
            refine ⟨.handler_error (py_strip (ty.getD "")) e, ?_⟩
            simp [h0, h1, hr]
          | ok u =>
            refine ⟨.handled (py_strip (ty.getD "")), ?_⟩
            simp [h0, h1, hr]
        · refine ⟨.unknown_event (py_strip (ty.getD "")) r, ?_⟩
          simp [h0, h1]
  · intro r2 h
    subst h
    rfl
  · intro ty2 r2 h h0
    subst h
    simp [dispatch_event, h0]
  · intro ty2 r2 h h0 h1
    subst h
    simp [dispatch_event, h0, h1]
  · intro ty2 r2 e h h0 h1 hr
    subst h
    simp [dispatch_event, h0, h1, hr]

/-- C5 witness: a handler that raises on a known event type is caught and
logged with the type and error. -/
theorem C5_witness :
    (py_strip ((some "task_done" : Option String).getD "") ≠ "") ∧
    (py_strip ((some "task_done" : Option String).getD "") ∈ EVENT_HANDLER_KEYS) ∧
    dispatch_event (fun _ => .error "boom") (.dict (some "task_done") "x")
      = .ok (.handler_error (py_strip ((some "task_done" : Option String).getD "")) "boom") := by
  refine ⟨by decide, by decide, ?_⟩
  exact (C5_dispatch_event_never_propagates (fun _ => .error "boom")
    (.dict (some "task_done") "x")).2.2.2.2 (some "task_done") "x" "boom" rfl
    (by decide) (by decide) rfl

theorem key_le_refl (a : Int × Int) : key_le a a = true := by
  simp [key_le]

theorem key_le_trans {a b c : Int × Int} (h1 : key_le a b = true) (h2 : key_le b c = true) :
    key_le a c = true := by
  simp only [key_le, Bool.or_eq_true, Bool.and_eq_true, decide_eq_true_eq] at *
  omega

theorem key_le_total (a b : Int × Int) :
    (key_le a b || key_le b a) = true := by
  simp only [key_le, Bool.or_eq_true, Bool.and_eq_true, decide_eq_true_eq]
  omega

/-- `sort_pending` output is pairwise ordered by the queue sort key. -/
theorem sort_pending_pairwise (l : List Task) :
    List.Pairwise (fun a b => key_le (queue_sort_key a) (queue_sort_key b) = true)
      (sort_pending l) := by
  unfold sort_pending
  apply List.sorted_mergeSort
  · exact fun _ _ _ h1 h2 => key_le_trans h1 h2
  · exact fun a b => key_le_total _ _

/-- In a key-sorted task list, a task whose key is strictly smaller occurs
strictly earlier (first occurrences compared). -/
theorem sorted_key_indexOf_lt {l : List Task}
    (hs : List.Pairwise (fun a b => key_le (queue_sort_key a) (queue_sort_key b) = true) l)
    {a b : Task} (ha : a ∈ l) (hb : b ∈ l)
    (h1 : (queue_sort_key a).1 < (queue_sort_key b).1 ∨
      ((queue_sort_key a).1 = (queue_sort_key b).1 ∧
        (queue_sort_key a).2 < (queue_sort_key b).2)) :
    l.indexOf a < l.indexOf b := by
  induction l with
  | nil => cases ha
  | cons x t ih =>
    have hx := (List.pairwise_cons.1 hs).1
    have ht := (List.pairwise_cons.1 hs).2
    by_cases hax : a = x
    · subst hax
      have hba : a ≠ b := by
        intro he
        subst he
        omega
      have hbt : b ∈ t := by
        rcases List.mem_cons.1 hb with h | h
        · exact absurd h.symm hba
        · exact h
      rw [List.indexOf_cons_self, List.indexOf_cons_ne t hba]
      exact Nat.succ_pos _
    · have hat : a ∈ t := by
        rcases List.mem_cons.1 ha with h | h
        · exact absurd h hax
        · exact h
      by_cases hbx : b = x
      · subst hbx
        exfalso
        have hle := hx a hat
        simp only [key_le, Bool.or_eq_true, Bool.and_eq_true, decide_eq_true_eq] at hle
        omega
      · have hbt : b ∈ t := by
          rcases List.mem_cons.1 hb with h | h
          · exact absurd h hbx
          · exact h
        have hxa : x ≠ a := fun he => hax he.symm
        have hxb : x ≠ b := fun he => hbx he.symm
        rw [List.indexOf_cons_ne t hxa, List.indexOf_cons_ne t hxb]
        exact Nat.succ_lt_succ (ih ht hat hbt)

/-- Dict lookup of a removed key is nothing. -/
theorem lookup_remove_running (l : List (String × RunningMeta)) (k : String) :
    lookup_running (remove_running l k) k = none := by
  unfold lookup_running remove_running
  rw [Option.map_eq_none']
  rw [List.find?_eq_none]
  intro x hx
  have hne := (List.mem_filter.1 hx).2
  simp only [ne_eq, decide_not, Bool.not_eq_eq_eq_not, Bool.not_true, decide_eq_false_iff_not] at hne
  simp [hne]

/-- A key present in the RUNNING map stays present across the in-place
update of its entry. -/
theorem lookup_set_running_isSome (l : List (String × RunningMeta)) (k : String)
    (m : RunningMeta) (e : String × RunningMeta) (he : e ∈ l) (hk : e.1 = k) :
    (lookup_running (set_running l k m) k).isSome = true := by
  unfold lookup_running set_running
  rw [Option.isSome_map']
  rw [List.find?_isSome]
  refine ⟨(k, m), List.mem_map.2 ⟨e, he, ?_⟩, by simp⟩
  simp [hk]

/-- The task returned by `enqueue_task` is in the new pending queue. -/
theorem enqueue_task_mem (qs : QueueState) (task : Task) (front : Bool) (now_iso : String) :
    (enqueue_task qs task front now_iso).2 ∈ (enqueue_task qs task front now_iso).1.pending := by
  unfold enqueue_task sort_pending
  simp [List.mem_mergeSort]

/-- `enqueue_task` grows the pending queue by exactly one task. -/
theorem enqueue_task_length (qs : QueueState) (task : Task) (front : Bool) (now_iso : String) :
    (enqueue_task qs task front now_iso).1.pending.length = qs.pending.length + 1 := by
  unfold enqueue_task sort_pending
  simp [List.length_mergeSort]

/-- C8: scheduling admission enforces the depth ceiling of 3 and nothing
else makes enqueueing fail: a `schedule_task` request with depth > 3 is
rejected with the queue unchanged, and a request with depth ≤ 3 — given an
owner chat, a non-empty description and no semantic duplicate — is accepted
and its task is enqueued (the pending queue grows by exactly that task). -/
theorem C8_schedule_depth_ceiling
    (owner : Option Int) (dup : String → Option String) (evt : ScheduleEvt)
    (qs : QueueState) (fresh_id now_iso : String) :
    (evt.depth > 3 →
      handle_schedule_task owner dup evt qs fresh_id now_iso = (qs, .rejected_depth)) ∧
    (evt.depth ≤ 3 → ∀ o, owner = some o → o ≠ 0 → py_strip evt.description ≠ "" →
      dup (py_strip evt.description) = none →
      ∃ t, (handle_schedule_task owner dup evt qs fresh_id now_iso).2 = .scheduled t ∧
        t ∈ (handle_schedule_task owner dup evt qs fresh_id now_iso).1.pending ∧
        (handle_schedule_task owner dup evt qs fresh_id now_iso).1.pending.length
          = qs.pending.length + 1 ∧
        t.depth = some evt.depth ∧ t.type = "task") := by
  constructor
  · intro hd
    unfold handle_schedule_task
    simp [hd]
  · intro hd o ho ho0 hdesc hdup
    have hd3 : ¬ (evt.depth > 3) := not_lt.2 hd
    have hor : ¬ (o = 0 ∨ py_strip evt.description = "") := by
      rintro (h | h)
      · exact ho0 h
      · exact hdesc h
    subst ho
    unfold handle_schedule_task
    rw [if_neg hd3]
    dsimp only
    rw [if_neg hor, hdup]
    exact ⟨_, rfl, enqueue_task_mem _ _ _ _, enqueue_task_length _ _ _ _, rfl, rfl⟩

/-- C8 witness: a depth-4 request is rejected with the queue unchanged and a
depth-3 request is accepted and enqueued. -/
theorem C8_witness :
    (((4 : Int) > 3) ∧
      handle_schedule_task (some 42) (fun _ => none)
        { description := "do x", context := "", depth := 4, task_id := none,
          parent_task_id := none }
        { pending := [], running := [], seq_counter := 0 } "fid" "iso"
        = ({ pending := [], running := [], seq_counter := 0 }, .rejected_depth)) ∧
    (((3 : Int) ≤ 3) ∧
      ∃ t, (handle_schedule_task (some 42) (fun _ => none)
        { description := "do x", context := "", depth := 3, task_id := none,
          parent_task_id := none }
        { pending := [], running := [], seq_counter := 0 } "fid" "iso").2 = .scheduled t ∧
        t ∈ (handle_schedule_task (some 42) (fun _ => none)
          { description := "do x", context := "", depth := 3, task_id := none,
            parent_task_id := none }
          { pending := [], running := [], seq_counter := 0 } "fid" "iso").1.pending ∧
        (handle_schedule_task (some 42) (fun _ => none)
          { description := "do x", context := "", depth := 3, task_id := none,
            parent_task_id := none }
          { pending := [], running := [], seq_counter := 0 } "fid" "iso").1.pending.length
          = ({ pending := [], running := [], seq_counter := 0 } : QueueState).pending.length + 1 ∧
        t.depth = some (3 : Int) ∧ t.type = "task") :=
  ⟨⟨by norm_num,
    (C8_schedule_depth_ceiling (some 42) (fun _ => none)
      { description := "do x", context := "", depth := 4, task_id := none,
        parent_task_id := none }
      { pending := [], running := [], seq_counter := 0 } "fid" "iso").1 (by norm_num)⟩,
   ⟨by norm_num,
    (C8_schedule_depth_ceiling (some 42) (fun _ => none)
      { description := "do x", context := "", depth := 3, task_id := none,
        parent_task_id := none }
      { pending := [], running := [], seq_counter := 0 } "fid" "iso").2 (by norm_num)
      42 rfl (by norm_num) (by decide) rfl⟩⟩

/-- The per-entry watchdog behaviour claimed by C4: with a positive
`started_at`, eviction happens exactly when `runtime = now - started_at`
reaches the hard timeout, for every heartbeat value; heartbeat lag and
staleness appear only as diagnostic fields of the hard-timeout record. -/
def eviction_spec (cfg : TimeoutCfg) (now : Time) (fresh_id now_iso : String)
    (qs : QueueState) (task_id : String) (meta : RunningMeta) : Prop :=
  (max 0 (now - meta.started_at.getD 0) < cfg.hard_timeout →
    (enforce_step cfg now fresh_id now_iso qs task_id meta).2 = .kept ∧
    (lookup_running (enforce_step cfg now fresh_id now_iso qs task_id meta).1.running
      task_id).isSome = true ∧
    (enforce_step cfg now fresh_id now_iso qs task_id meta).1.pending = qs.pending) ∧
  (max 0 (now - meta.started_at.getD 0) ≥ cfg.hard_timeout →
    ∃ rcd, (enforce_step cfg now fresh_id now_iso qs task_id meta).2 = .evicted rcd ∧
      lookup_running (enforce_step cfg now fresh_id now_iso qs task_id meta).1.running
        task_id = none ∧
      rcd.runtime_sec = max 0 (now - meta.started_at.getD 0) ∧
      rcd.heartbeat_lag_sec
        = max 0 (now - meta.last_heartbeat_at.getD (meta.started_at.getD 0)) ∧
      rcd.heartbeat_stale
        = decide (max 0 (now - meta.last_heartbeat_at.getD (meta.started_at.getD 0))
            ≥ cfg.heartbeat_stale))

/-- C4: for every in-flight entry with a positive `started_at` processed by
the watchdog, eviction is triggered exactly by `runtime ≥ hard_timeout`:
below the threshold the entry is kept (for every heartbeat value, however
stale), at or above it the entry is removed (even with a fresh heartbeat),
and heartbeat lag/staleness are recorded only as diagnostic metadata on the
hard-timeout record. -/
theorem C4_eviction_iff_hard_runtime
    (cfg : TimeoutCfg) (now : Time) (fresh_id now_iso : String)
    (qs : QueueState) (task_id : String) (meta : RunningMeta)
    (hstart : meta.started_at.getD 0 > 0)
    (hmem : (task_id, meta) ∈ qs.running) :
    eviction_spec cfg now fresh_id now_iso qs task_id meta := by
  have hs : ¬ (meta.started_at.getD 0 ≤ 0) := not_le.2 hstart
  unfold eviction_spec enforce_step
  rw [if_neg hs]
  dsimp only
  constructor
  · intro hlt
    rw [if_pos hlt]
    exact ⟨rfl, lookup_set_running_isSome _ _ _ _ hmem rfl, rfl⟩
  · intro hge
    have hnlt : ¬ (max 0 (now - meta.started_at.getD 0) < cfg.hard_timeout) := not_lt.2 hge
    rw [if_neg hnlt]
    by_cases hA : ((meta.attempt.orElse fun _ => meta.task.bind Task.attempt).getD 1)
        ≤ cfg.max_retries
    · rw [if_pos hA]
      exact ⟨_, rfl, lookup_remove_running _ _, rfl, rfl, rfl⟩
    · rw [if_neg hA]
      exact ⟨_, rfl, lookup_remove_running _ _, rfl, rfl, rfl⟩

/-- Concrete RUNNING entry for the C4 witness: long runtime, fresh heartbeat. -/
def c4_meta : RunningMeta :=
  { task := none, started_at := some 10, last_heartbeat_at := some 1999,
    worker_id := some 0, attempt := some 1, soft_sent := false }

/-- Concrete queue state for the C4 witness. -/
def c4_qs : QueueState :=
  { pending := [], running := [("tid1", c4_meta)], seq_counter := 0 }

/-- C4 witness: a long-running entry with a perfectly fresh heartbeat is
evicted, at concrete values (`started_at = 10`, `now = 2000`, heartbeat 1
second old, default 1800-second hard timeout). -/
theorem C4_witness :
    ((c4_meta.started_at.getD 0 > 0) ∧ (("tid1", c4_meta) ∈ c4_qs.running)) ∧
    eviction_spec default_timeout_cfg 2000 "newid" "iso" c4_qs "tid1" c4_meta :=
  ⟨⟨by norm_num [c4_meta], by simp [c4_qs]⟩,
   C4_eviction_iff_hard_runtime default_timeout_cfg 2000 "newid" "iso" c4_qs "tid1" c4_meta
     (by norm_num [c4_meta]) (by simp [c4_qs])⟩

/-- A front-enqueued task precedes every previously pending task of the
same effective priority, provided the pending sequence numbers are bounded
by the counter (the reachable-state invariant of the shared counter). -/
theorem enqueue_front_precedes (qs : QueueState) (task : Task) (now_iso : String)
    (hbound : ∀ u ∈ qs.pending, u.queue_seq.getD 0 ≤ qs.seq_counter ∧
      -qs.seq_counter ≤ u.queue_seq.getD 0)
    (u : Task) (hu : u ∈ qs.pending)
    (hpr : (queue_sort_key u).1 = (queue_sort_key ((enqueue_task qs task true now_iso).2)).1) :
    (enqueue_task qs task true now_iso).1.pending.indexOf ((enqueue_task qs task true now_iso).2)
      < (enqueue_task qs task true now_iso).1.pending.indexOf u := by
  have hmem_t := enqueue_task_mem qs task true now_iso
  have hmem_u : u ∈ (enqueue_task qs task true now_iso).1.pending := by
    show u ∈ sort_pending _
    unfold sort_pending
    rw [List.mem_mergeSort]
    exact List.mem_append_left _ hu
  refine sorted_key_indexOf_lt (sort_pending_pairwise _) hmem_t hmem_u ?_
  right
  refine ⟨hpr.symm, ?_⟩
  have hb := hbound u hu
  have hkey_t : (queue_sort_key ((enqueue_task qs task true now_iso).2)).2
      = -(qs.seq_counter + 1) := rfl
  rw [hkey_t]
  unfold queue_sort_key
  omega

/-- The per-entry hard-timeout retry behaviour claimed by C3, for an entry
whose runtime has reached the hard timeout.  `A` is the attempt counter the
watchdog reads.  If `A ≤ max_retries` the entry is removed and a fresh task
(new id, attempt `A+1`, back-references to the old id) is enqueued at the
front of its priority class (front-insertion sequence, preceding every
previously pending task of equal effective priority); otherwise the entry is
removed and nothing is enqueued. -/
def hard_timeout_retry_spec (cfg : TimeoutCfg) (now : Time) (fresh_id now_iso : String)
    (qs : QueueState) (task_id : String) (meta : RunningMeta) : Prop :=
  let A := (meta.attempt.orElse fun _ => meta.task.bind Task.attempt).getD 1
  let res := enforce_step cfg now fresh_id now_iso qs task_id meta
  (A ≤ cfg.max_retries →
    lookup_running res.1.running task_id = none ∧
    ∃ t, t ∈ res.1.pending ∧ t.id = fresh_id ∧ t.attempt = some (A + 1) ∧
      t.timeout_retry_from = some task_id ∧ t.original_task_id = some task_id ∧
      t.queue_seq = some (-(qs.seq_counter + 1)) ∧
      ((∀ u ∈ qs.pending, u.queue_seq.getD 0 ≤ qs.seq_counter ∧
          -qs.seq_counter ≤ u.queue_seq.getD 0) →
        ∀ u ∈ qs.pending, (queue_sort_key u).1 = (queue_sort_key t).1 →
          res.1.pending.indexOf t < res.1.pending.indexOf u) ∧
      (∃ rcd, res.2 = .evicted rcd ∧ rcd.requeued = true ∧ rcd.new_attempt = A + 1)) ∧
  (A > cfg.max_retries →
    lookup_running res.1.running task_id = none ∧
    res.1.pending = qs.pending ∧
    ∃ rcd, res.2 = .evicted rcd ∧ rcd.requeued = false)

/-- C3: on hard timeout, an entry with attempt ≤ `max_retries` is removed
from RUNNING and requeued as a fresh task with a new id, attempt + 1 and a
back-reference, front-inserted in its priority class; an entry whose attempt
exceeds `max_retries` is removed and dropped permanently. -/
theorem C3_hard_timeout_retry_or_drop
    (cfg : TimeoutCfg) (now : Time) (fresh_id now_iso : String)
    (qs : QueueState) (task_id : String) (meta : RunningMeta)
    (hstart : meta.started_at.getD 0 > 0)
    (hhard : max 0 (now - meta.started_at.getD 0) ≥ cfg.hard_timeout) :
    hard_timeout_retry_spec cfg now fresh_id now_iso qs task_id meta := by
  have hs : ¬ (meta.started_at.getD 0 ≤ 0) := not_le.2 hstart
  have hnlt : ¬ (max 0 (now - meta.started_at.getD 0) < cfg.hard_timeout) := not_lt.2 hhard
  unfold hard_timeout_retry_spec enforce_step
  rw [if_neg hs]
  dsimp only
  rw [if_neg hnlt]
  constructor
  · intro hA
    rw [if_pos hA]
    refine ⟨lookup_remove_running _ _, ?_⟩
    refine ⟨_, enqueue_task_mem _ _ _ _, rfl, rfl, rfl, rfl, rfl, ?_, ⟨_, rfl, rfl, rfl⟩⟩
    intro hbound u hu hpr
    exact enqueue_front_precedes _ _ now_iso hbound u hu hpr
  · intro hA
    have hA2 : ¬ ((meta.attempt.orElse fun _ => meta.task.bind Task.attempt).getD 1
        ≤ cfg.max_retries) := not_le.2 hA
    rw [if_neg hA2]
    exact ⟨lookup_remove_running _ _, rfl, _, rfl, rfl⟩

/-- Concrete queue state for the C3 witness. -/
def c3_qs : QueueState := { pending := [], running := [], seq_counter := 5 }

/-- Concrete timed-out entry at attempt 1 for the C3 witness. -/
def c3_meta1 : RunningMeta :=
  { task := none, started_at := some 10, last_heartbeat_at := some 1900,
    worker_id := some 0, attempt := some 1, soft_sent := false }

/-- Concrete timed-out entry at attempt 2 for the C3 witness. -/
def c3_meta2 : RunningMeta := { c3_meta1 with attempt := some 2 }

/-- C3 witness: with the default `max_retries = 1`, an entry at attempt 1 is
requeued and an entry at attempt 2 is dropped, at concrete values. -/
theorem C3_witness :
    ((c3_meta1.started_at.getD 0 > 0) ∧
      (max 0 ((2000 : Time) - c3_meta1.started_at.getD 0) ≥ default_timeout_cfg.hard_timeout) ∧
      hard_timeout_retry_spec default_timeout_cfg 2000 "newid" "iso" c3_qs "tid1" c3_meta1) ∧
    ((c3_meta2.started_at.getD 0 > 0) ∧
      hard_timeout_retry_spec default_timeout_cfg 2000 "newid" "iso" c3_qs "tid1" c3_meta2) :=
  ⟨⟨by norm_num [c3_meta1], by norm_num [c3_meta1, default_timeout_cfg],
    C3_hard_timeout_retry_or_drop default_timeout_cfg 2000 "newid" "iso" c3_qs "tid1" c3_meta1
      (by norm_num [c3_meta1]) (by norm_num [c3_meta1, default_timeout_cfg])⟩,
   ⟨by norm_num [c3_meta2, c3_meta1],
    C3_hard_timeout_retry_or_drop default_timeout_cfg 2000 "newid" "iso" c3_qs "tid1" c3_meta2
      (by norm_num [c3_meta2, c3_meta1]) (by norm_num [c3_meta2, c3_meta1, default_timeout_cfg])⟩⟩

/-! ### C2: ordering of the pending queue under sequences of enqueues -/

/-- Run a sequence of `enqueue_task` requests (task, front flag) against a
queue state; returns the final state and the stamped tasks in request
order.  The `queued_at` string plays no role in ordering and is passed
empty. -/
def enqueue_run (qs : QueueState) : List (Task × Bool) → QueueState × List Task
  | [] => (qs, [])
  | r :: rs =>
    let e := enqueue_task qs r.1 r.2 ""
    let rest := enqueue_run e.1 rs
    (rest.1, e.2 :: rest.2)

theorem enqueue_run_length (rs : List (Task × Bool)) :
    ∀ qs : QueueState, (enqueue_run qs rs).2.length = rs.length := by
  induction rs with
  | nil => intro qs; rfl
  | cons r t ih => intro qs; simp [enqueue_run, ih]

theorem enqueue_run_stamped (rs : List (Task × Bool)) :
    ∀ (qs : QueueState) (i : Nat), i < rs.length →
      (enqueue_run qs rs).2.getD i Task.empty
        = stamp_task (qs.seq_counter + ((i : Int) + 1))
            (rs.getD i (Task.empty, false)).1 (rs.getD i (Task.empty, false)).2 "" := by
  induction rs with
  | nil => intro qs i h; exact absurd h (Nat.not_lt_zero i)
  | cons r t ih =>
    intro qs i h
    cases i with
    | zero => simp [enqueue_run, enqueue_task]
    | succ n =>
      have hn : n < t.length := Nat.lt_of_succ_lt_succ h
      show (enqueue_run qs (r :: t)).2.getD (n + 1) Task.empty = _
      have : (enqueue_run qs (r :: t)).2
          = (enqueue_task qs r.1 r.2 "").2 :: (enqueue_run (enqueue_task qs r.1 r.2 "").1 t).2 := rfl
      rw [this, List.getD_cons_succ, ih _ n hn]
      have hcounter : (enqueue_task qs r.1 r.2 "").1.seq_counter = qs.seq_counter + 1 := rfl
      rw [hcounter, List.getD_cons_succ]
      congr 1
      push_cast
      ring

theorem enqueue_run_pending_perm (rs : List (Task × Bool)) :
    ∀ qs : QueueState,
      (enqueue_run qs rs).1.pending.Perm (qs.pending ++ (enqueue_run qs rs).2) := by
  induction rs with
  | nil => intro qs; simp [enqueue_run]
  | cons r t ih =>
    intro qs
    have h1 : (enqueue_run qs (r :: t)).1 = (enqueue_run (enqueue_task qs r.1 r.2 "").1 t).1 := rfl
    have h2 : (enqueue_run qs (r :: t)).2
        = (enqueue_task qs r.1 r.2 "").2 :: (enqueue_run (enqueue_task qs r.1 r.2 "").1 t).2 := rfl
    rw [h1, h2]
    refine (ih ((enqueue_task qs r.1 r.2 "").1)).trans ?_
    have hperm : (enqueue_task qs r.1 r.2 "").1.pending.Perm
        (qs.pending ++ [(enqueue_task qs r.1 r.2 "").2]) := by
      show (sort_pending _).Perm _
      exact List.mergeSort_perm _ _
    refine (hperm.append_right _).trans ?_
    rw [List.append_assoc]
    exact List.Perm.refl _

theorem enqueue_run_pending_sorted (rs : List (Task × Bool)) :
    ∀ qs : QueueState, rs ≠ [] →
      List.Pairwise (fun a b => key_le (queue_sort_key a) (queue_sort_key b) = true)
        (enqueue_run qs rs).1.pending := by
  induction rs with
  | nil => intro qs h; exact absurd rfl h
  | cons r t ih =>
    intro qs _
    cases t with
    | nil => exact sort_pending_pairwise _
    | cons r2 t2 => exact ih _ (by simp)

/-- The effective priority of a request, as `enqueue_task` defaults it. -/
def req_priority (r : Task × Bool) : Int :=
  r.1.priority.getD (task_priority r.1.type)

/-- The ordering behaviour of the pending queue claimed by C2, for the `i`-th
and `j`-th of a sequence of enqueue requests starting from the empty queue:
a strictly smaller effective priority dequeues first regardless of enqueue
order; equal priorities dequeue FIFO for normal enqueues; and a front
enqueue dequeues before any earlier normal enqueue of the same priority. -/
def queue_order_spec (reqs : List (Task × Bool)) (i j : Nat) : Prop :=
  let run := enqueue_run { pending := [], running := [], seq_counter := 0 } reqs
  let ti := run.2.getD i Task.empty
  let tj := run.2.getD j Task.empty
  (req_priority (reqs.getD i (Task.empty, false)) < req_priority (reqs.getD j (Task.empty, false)) →
    run.1.pending.indexOf ti < run.1.pending.indexOf tj) ∧
  (req_priority (reqs.getD i (Task.empty, false)) = req_priority (reqs.getD j (Task.empty, false)) →
    i < j → (reqs.getD i (Task.empty, false)).2 = false → (reqs.getD j (Task.empty, false)).2 = false →
    run.1.pending.indexOf ti < run.1.pending.indexOf tj) ∧
  (req_priority (reqs.getD i (Task.empty, false)) = req_priority (reqs.getD j (Task.empty, false)) →
    i < j → (reqs.getD i (Task.empty, false)).2 = false → (reqs.getD j (Task.empty, false)).2 = true →
    run.1.pending.indexOf tj < run.1.pending.indexOf ti)

/-- C2: the pending queue dequeues in ascending `(priority, sequence)` order:
lower priority value first regardless of enqueue order, FIFO within a
priority class, and a front-enqueued task before any earlier normal enqueue
at the same priority. -/
theorem C2_queue_dequeue_order (reqs : List (Task × Bool)) (i j : Nat)
    (hi : i < reqs.length) (hj : j < reqs.length) :
    queue_order_spec reqs i j := by
  have hlen := enqueue_run_length reqs ({ pending := [], running := [], seq_counter := 0 } : QueueState)
  have hsi := enqueue_run_stamped reqs { pending := [], running := [], seq_counter := 0 } i hi
  have hsj := enqueue_run_stamped reqs { pending := [], running := [], seq_counter := 0 } j hj
  have hperm := enqueue_run_pending_perm reqs ({ pending := [], running := [], seq_counter := 0 } : QueueState)
  have hsorted := enqueue_run_pending_sorted reqs ({ pending := [], running := [], seq_counter := 0 } : QueueState)
    (by intro h; rw [h] at hi; exact absurd hi (Nat.not_lt_zero i))
  have hmem_i : (enqueue_run { pending := [], running := [], seq_counter := 0 } reqs).2.getD i Task.empty
      ∈ (enqueue_run { pending := [], running := [], seq_counter := 0 } reqs).1.pending := by
    rw [hperm.mem_iff]
    refine List.mem_append_right _ ?_
    rw [List.getD_eq_get _ _ (by rw [hlen]; exact hi)]
    exact List.get_mem _ _ _
  have hmem_j : (enqueue_run { pending := [], running := [], seq_counter := 0 } reqs).2.getD j Task.empty
      ∈ (enqueue_run { pending := [], running := [], seq_counter := 0 } reqs).1.pending := by
    rw [hperm.mem_iff]
    refine List.mem_append_right _ ?_
    rw [List.getD_eq_get _ _ (by rw [hlen]; exact hj)]
    exact List.get_mem _ _ _
  have hkey_i : queue_sort_key ((enqueue_run { pending := [], running := [], seq_counter := 0 } reqs).2.getD i Task.empty)
      = (req_priority (reqs.getD i (Task.empty, false)),
         if (reqs.getD i (Task.empty, false)).2 then -(0 + ((i : Int) + 1)) else (0 + ((i : Int) + 1))) := by
    rw [hsi]
    rfl
  have hkey_j : queue_sort_key ((enqueue_run { pending := [], running := [], seq_counter := 0 } reqs).2.getD j Task.empty)
      = (req_priority (reqs.getD j (Task.empty, false)),
         if (reqs.getD j (Task.empty, false)).2 then -(0 + ((j : Int) + 1)) else (0 + ((j : Int) + 1))) := by
    rw [hsj]
    rfl
  refine ⟨?_, ?_, ?_⟩
  · intro hp
    refine sorted_key_indexOf_lt hsorted hmem_i hmem_j ?_
    left
    rw [hkey_i, hkey_j]
    exact hp
  · intro hp hij hfi hfj
    refine sorted_key_indexOf_lt hsorted hmem_i hmem_j ?_
    right
    rw [hkey_i, hkey_j]
    refine ⟨hp, ?_⟩
    rw [hfi, hfj, if_neg Bool.false_ne_true, if_neg Bool.false_ne_true]
    omega
  · intro hp hij hfi hfj
    refine sorted_key_indexOf_lt hsorted hmem_j hmem_i ?_
    right
    rw [hkey_i, hkey_j]
    refine ⟨hp.symm, ?_⟩
    rw [hfi, hfj, if_neg Bool.false_ne_true, if_pos rfl]
    omega

/-- Concrete enqueue scenario for the C2 witness: an evolution task (priority
1), then two interactive tasks (priority 0) enqueued normally, then one
interactive task enqueued at the front. -/
def c2_reqs : List (Task × Bool) :=
  [({ Task.empty with id := "A", type := "evolution" }, false),
   ({ Task.empty with id := "B", type := "task" }, false),
   ({ Task.empty with id := "C", type := "task" }, false),
   ({ Task.empty with id := "D", type := "task" }, true)]

/-- C2 witness: at concrete requests, the priority-0 task enqueued second
dequeues before the priority-1 task enqueued first; two normal same-priority
tasks dequeue FIFO; and a front-inserted task dequeues before an earlier
normal task of the same priority. -/
theorem C2_witness :
    ((1 : Nat) < c2_reqs.length ∧ (0 : Nat) < c2_reqs.length ∧
      queue_order_spec c2_reqs 1 0) ∧
    queue_order_spec c2_reqs 1 2 ∧
    queue_order_spec c2_reqs 1 3 :=
  ⟨⟨by decide, by decide, C2_queue_dequeue_order c2_reqs 1 0 (by decide) (by decide)⟩,
   C2_queue_dequeue_order c2_reqs 1 2 (by decide) (by decide),
   C2_queue_dequeue_order c2_reqs 1 3 (by decide) (by decide)⟩

end Supervisor

/-! ### C6: exhaustion covers every configured provider with a reason -/

theorem setMap_isSome_mono {α : Type} (m : PMap α) (k : String) (v : α) (q : String)
    (h : (m q).isSome = true) : ((setMap m k v) q).isSome = true := by
  unfold setMap
  split
  · rfl
  · exact h

/-- One walk step never erases an unavailability reason. -/
theorem walk_step_unavailable_mono (env : Env) (st : RouterState) (now : Time)
    (ex : List String) (exm : String → List String) (acc : WalkAcc) (name q : String)
    (h : (acc.unavailable q).isSome = true) :
    ((walk_step env st now ex exm acc name).unavailable q).isSome = true := by
  unfold walk_step
  repeat' first | split | dsimp only
  all_goals first
    | exact setMap_isSome_mono _ _ _ _ h
    | exact h

/-- One walk step appends at most the processed name to the candidates. -/
theorem walk_step_candidates (env : Env) (st : RouterState) (now : Time)
    (ex : List String) (exm : String → List String) (acc : WalkAcc) (name : String) :
    (walk_step env st now ex exm acc name).candidates = acc.candidates ∨
    (walk_step env st now ex exm acc name).candidates = acc.candidates ++ [name] := by
  unfold walk_step
  repeat' first | split | dsimp only
  all_goals simp

/-- One walk step either nominates the provider as a candidate or records an
unavailability reason for it. -/
theorem walk_step_covers (env : Env) (st : RouterState) (now : Time)
    (ex : List String) (exm : String → List String) (acc : WalkAcc) (name : String) :
    (walk_step env st now ex exm acc name).candidates = acc.candidates ++ [name] ∨
    (((walk_step env st now ex exm acc name).unavailable name).isSome = true ∧
      (walk_step env st now ex exm acc name).candidates = acc.candidates) := by
  unfold walk_step
  repeat' first | split | dsimp only
  all_goals simp [setMap]

theorem walk_fold_candidates_prefix (env : Env) (st : RouterState) (now : Time)
    (ex : List String) (exm : String → List String) :
    ∀ (names : List String) (acc : WalkAcc),
      ∃ l, (names.foldl (walk_step env st now ex exm) acc).candidates
        = acc.candidates ++ l := by
  intro names
  induction names with
  | nil => intro acc; exact ⟨[], by simp⟩
  | cons x t ih =>
    intro acc
    rw [List.foldl_cons]
    rcases walk_step_candidates env st now ex exm acc x with h | h
    · obtain ⟨l, hl⟩ := ih (walk_step env st now ex exm acc x)
      exact ⟨l, by rw [hl, h]⟩
    · obtain ⟨l, hl⟩ := ih (walk_step env st now ex exm acc x)
      refine ⟨[x] ++ l, by rw [hl, h, List.append_assoc]⟩

theorem walk_fold_unavailable_mono (env : Env) (st : RouterState) (now : Time)
    (ex : List String) (exm : String → List String) :
    ∀ (names : List String) (acc : WalkAcc) (q : String),
      (acc.unavailable q).isSome = true →
      ((names.foldl (walk_step env st now ex exm) acc).unavailable q).isSome = true := by
  intro names
  induction names with
  | nil => intro acc q h; exact h
  | cons x t ih =>
    intro acc q h
    rw [List.foldl_cons]
    exact ih _ q (walk_step_unavailable_mono env st now ex exm acc x q h)

/-- If the walk nominates no candidate among `names`, every name in `names`
ends with an unavailability reason. -/
theorem walk_fold_covers (env : Env) (st : RouterState) (now : Time)
    (ex : List String) (exm : String → List String) :
    ∀ (names : List String) (acc : WalkAcc),
      (names.foldl (walk_step env st now ex exm) acc).candidates = acc.candidates →
      ∀ n ∈ names,
        ((names.foldl (walk_step env st now ex exm) acc).unavailable n).isSome = true := by
  intro names
  induction names with
  | nil => intro acc _ n hn; cases hn
  | cons x t ih =>
    intro acc hcand n hn
    rw [List.foldl_cons] at hcand ⊢
    rcases walk_step_covers env st now ex exm acc x with h | ⟨hsome, hsame⟩
    · exfalso
      obtain ⟨l, hl⟩ := walk_fold_candidates_prefix env st now ex exm t
        (walk_step env st now ex exm acc x)
      rw [hl, h] at hcand
      have hlen := congrArg List.length hcand
      simp only [List.length_append, List.length_cons, List.length_singleton] at hlen
      omega
    · rcases List.mem_cons.1 hn with rfl | hnt
      · exact walk_fold_unavailable_mono env st now ex exm t _ n hsome
      · exact ih _ (hcand.trans hsame.symm) n hnt

/-- With no exclusions and no provider credentialed, every walk step records
`missing_credentials_or_invalid_config` and nominates nobody. -/
theorem walk_fold_all_missing (env : Env) (st : RouterState) (now : Time)
    (exm : String → List String) :
    ∀ (names : List String) (acc : WalkAcc),
      (∀ n ∈ names, build_provider_config env n = none) →
      ((names.foldl (walk_step env st now [] exm) acc).candidates = acc.candidates) ∧
      (∀ q, (names.foldl (walk_step env st now [] exm) acc).unavailable q
        = if q ∈ names then some "missing_credentials_or_invalid_config"
          else acc.unavailable q) := by
  intro names
  induction names with
  | nil => intro acc _; exact ⟨rfl, fun q => by simp⟩
  | cons x t ih =>
    intro acc hall
    have hx : build_provider_config env x = none := hall x (List.mem_cons_self x t)
    have hstep : walk_step env st now [] exm acc x
        = { acc with unavailable := setMap acc.unavailable x "missing_credentials_or_invalid_config" } := by
      unfold walk_step
      rw [if_neg (List.not_mem_nil x), hx]
    rw [List.foldl_cons, hstep]
    obtain ⟨hc, hu⟩ := ih _ (fun n hn => hall n (List.mem_cons_of_mem _ hn))
    refine ⟨hc, fun q => ?_⟩
    rw [hu q]
    by_cases hqt : q ∈ t
    · simp [hqt]
    · by_cases hqx : q = x
      · subst hqx
        simp [setMap, hqt]
      · simp [setMap, hqt, hqx]

/-- `select_pick` always returns a selection, never the exhaustion error. -/
theorem select_pick_ne_exhausted (env : Env) (st : RouterState) (now : Time)
    (acc : WalkAcc) (c : String) (cs : List String) (e : ExhaustedErr) :
    select_pick env st now acc c cs ≠ .exhausted e := by
  unfold select_pick
  intro h
  exact SelectResult.noConfusion h

/-- The outcome claimed by C6 for a raising `select`: the exhaustion error's
reason map has an entry for every configured provider name. -/
def exhausted_reasons_cover (r : SelectResult) (order : List String) : Prop :=
  match r with
  | .exhausted e => ∀ n ∈ order, (e.unavailable_reasons n).isSome = true
  | .ok _ _ _ => True

/-- The outcome claimed by C6 for zero credentialed providers: `select`
raises and every configured provider is reported with the
missing-credentials reason. -/
def exhausted_missing_spec (r : SelectResult) (order : List String) : Prop :=
  match r with
  | .exhausted e =>
    ∀ n ∈ order, e.unavailable_reasons n = some "missing_credentials_or_invalid_config"
  | .ok _ _ _ => False

/-- C6: whenever `select` raises the exhaustion error its
`unavailable_reasons` carries an entry for every configured provider, and
with zero credentialed providers (no exclusions) `select` does raise, every
configured provider being reported as missing credentials. -/
theorem C6_exhaustion_covers_all_providers
    (env : Env) (st : RouterState) (now : Time)
    (exclude : List String) (exclude_models : String → List String) :
    exhausted_reasons_cover (select env st now exclude exclude_models) st.order ∧
    ((∀ n ∈ st.order, build_provider_config env n = none) →
      exhausted_missing_spec (select env st now [] (fun _ => [])) st.order) := by
  constructor
  · unfold exhausted_reasons_cover select select_candidates
    dsimp only
    cases hc : (st.order.foldl
        (walk_step env st now (normalize_excluded exclude)
          (fun p => ((exclude_models p).map py_strip).filter (fun x => x ≠ "")))
        walk_init).candidates with
    | nil =>
      intro n hn
      exact walk_fold_covers env st now _ _ st.order walk_init hc n hn
    | cons c cs =>
      cases hp : select_pick env st now
          (st.order.foldl
            (walk_step env st now (normalize_excluded exclude)
              (fun p => ((exclude_models p).map py_strip).filter (fun x => x ≠ "")))
            walk_init) c cs with
      | ok sel ev st2 => exact trivial
      | exhausted e => exact absurd hp (select_pick_ne_exhausted _ _ _ _ _ _ _)
  · intro hall
    unfold exhausted_missing_spec select select_candidates
    dsimp only
    obtain ⟨hc, hu⟩ := walk_fold_all_missing env st now
      (fun p => ((([] : List String)).map py_strip).filter (fun x => x ≠ "")) st.order walk_init hall
    have hex : normalize_excluded [] = [] := rfl
    rw [hex] at *
    rw [hc]
    intro n hn
    dsimp only
    rw [hu n]
    simp [hn]

/-- Concrete router state for the C6 witness: two configured providers. -/
def c6_st : RouterState := router_init ["groq", "hf"] "adaptive_rr" 600

/-- C6 witness: with an empty environment (zero credentialed providers),
`select` raises and reports both configured providers as missing
credentials. -/
theorem C6_witness :
    (∀ n ∈ c6_st.order, build_provider_config (fun _ => none) n = none) ∧
    exhausted_missing_spec (select (fun _ => none) c6_st 5 [] (fun _ => [])) c6_st.order :=
  ⟨by decide,
   (C6_exhaustion_covers_all_providers (fun _ => none) c6_st 5 [] (fun _ => [])).2 (by decide)⟩

/-! ### C7: adaptive-round-robin selection minimises the score tuple -/

theorem score_lt_irrefl (a : Score) : score_lt a a = false := by
  simp [score_lt]

theorem score_lt_trans {a b c : Score}
    (h1 : score_lt a b = true) (h2 : score_lt b c = true) : score_lt a c = true := by
  simp only [score_lt, Bool.or_eq_true, Bool.and_eq_true, decide_eq_true_eq] at *
  rcases h1 with h1 | ⟨e1, h1⟩
  · rcases h2 with h2 | ⟨e2, h2⟩
    · exact Or.inl (lt_trans h1 h2)
    · exact Or.inl (e2 ▸ h1)
  · rcases h2 with h2 | ⟨e2, h2⟩
    · exact Or.inl (e1 ▸ h2)
    · refine Or.inr ⟨e1.trans e2, ?_⟩
      rcases h1 with h1 | ⟨f1, h1⟩
      · rcases h2 with h2 | ⟨f2, h2⟩
        · exact Or.inl (lt_trans h1 h2)
        · exact Or.inl (f2 ▸ h1)
      · rcases h2 with h2 | ⟨f2, h2⟩
        · exact Or.inl (f1 ▸ h2)
        · exact Or.inr ⟨f1.trans f2, lt_trans h1 h2⟩

theorem score_lt_asymm {a b : Score} (h : score_lt a b = true) : score_lt b a = false := by
  by_contra hx
  rw [Bool.not_eq_false] at hx
  have := score_lt_trans h hx
  rw [score_lt_irrefl] at this
  exact Bool.false_ne_true this

theorem score_lt_total2 (a b : Score) :
    score_lt a b = true ∨ score_lt b a = true ∨ a = b := by
  simp only [score_lt, Bool.or_eq_true, Bool.and_eq_true, decide_eq_true_eq]
  rcases lt_trichotomy a.1 b.1 with h | h | h
  · exact Or.inl (Or.inl h)
  · rcases lt_trichotomy a.2.1 b.2.1 with h2 | h2 | h2
    · exact Or.inl (Or.inr ⟨h, Or.inl h2⟩)
    · rcases lt_trichotomy a.2.2 b.2.2 with h3 | h3 | h3
      · exact Or.inl (Or.inr ⟨h, Or.inr ⟨h2, h3⟩⟩)
      · exact Or.inr (Or.inr (Prod.ext h (Prod.ext h2 h3)))
      · exact Or.inr (Or.inl (Or.inr ⟨h.symm, Or.inr ⟨h2.symm, h3⟩⟩))
    · exact Or.inr (Or.inl (Or.inr ⟨h.symm, Or.inl h2⟩))
  · exact Or.inr (Or.inl (Or.inl h))

theorem score_lt_false_trans {a b c : Score}
    (h1 : score_lt a b = false) (h2 : score_lt b c = false) : score_lt a c = false := by
  by_contra hx
  rw [Bool.not_eq_false] at hx
  rcases score_lt_total2 a b with hab | hab | hab
  · rw [h1] at hab
    exact Bool.false_ne_true hab
  · rcases score_lt_total2 b c with hbc | hbc | hbc
    · rw [h2] at hbc
      exact Bool.false_ne_true hbc
    · have := score_lt_trans (score_lt_trans hbc hab) hx
      rw [score_lt_irrefl] at this
      exact Bool.false_ne_true this
    · subst hbc
      have := score_lt_trans hab hx
      rw [score_lt_irrefl] at this
      exact Bool.false_ne_true this
  · subst hab
    rcases score_lt_total2 a c with hac | hac | hac
    · rw [h2] at hac
      exact Bool.false_ne_true hac
    · have := score_lt_trans hac hx
      rw [score_lt_irrefl] at this
      exact Bool.false_ne_true this
    · subst hac
      rw [score_lt_irrefl] at hx
      exact Bool.false_ne_true hx

/-- `sorted(xs, key=score)[0]` starting from `b`: the fold keeps a running
minimum, preferring the earlier element on ties (stability). -/
theorem stable_min_fold_spec {α : Type} (f : α → Score) :
    ∀ (xs : List α) (b : α),
      (xs.foldl (fun best c => if score_lt (f c) (f best) then c else best) b = b ∨
        xs.foldl (fun best c => if score_lt (f c) (f best) then c else best) b ∈ xs) ∧
      score_lt (f b)
        (f (xs.foldl (fun best c => if score_lt (f c) (f best) then c else best) b)) = false ∧
      ∀ y ∈ xs, score_lt (f y)
        (f (xs.foldl (fun best c => if score_lt (f c) (f best) then c else best) b)) = false := by
  intro xs
  induction xs with
  | nil =>
    intro b
    exact ⟨Or.inl rfl, score_lt_irrefl _, by simp⟩
  | cons c t ih =>
    intro b
    rw [List.foldl_cons]
    obtain ⟨hmem, hb, hall⟩ := ih (if score_lt (f c) (f b) then c else b)
    by_cases hc : score_lt (f c) (f b) = true
    · rw [if_pos hc] at hmem hb hall ⊢
      refine ⟨?_, ?_, ?_⟩
      · rcases hmem with h | h
        · exact Or.inr (by rw [h]; exact List.mem_cons_self c t)
        · exact Or.inr (List.mem_cons_of_mem _ h)
      · by_contra hx
        rw [Bool.not_eq_false] at hx
        have := score_lt_trans hc hx
        rw [hb] at this
        exact Bool.false_ne_true this
      · intro y hy
        rcases List.mem_cons.1 hy with rfl | hyt
        · exact hb
        · exact hall y hyt
    · have hcF : score_lt (f c) (f b) = false := by
        rwa [Bool.not_eq_true] at hc
      rw [if_neg hc] at hmem hb hall ⊢
      refine ⟨?_, hb, ?_⟩
      · rcases hmem with h | h
        · exact Or.inl h
        · exact Or.inr (List.mem_cons_of_mem _ h)
      · intro y hy
        rcases List.mem_cons.1 hy with rfl | hyt
        · exact score_lt_false_trans hcF hb
        · exact hall y hyt

/-- The leftmost stable minimum is a member and scores no worse than every
element of the list. -/
theorem stable_min_mem_min {α : Type} (f : α → Score) (x : α) (xs : List α) (m : α)
    (h : stable_min f (x :: xs) = some m) :
    m ∈ x :: xs ∧ ∀ y ∈ x :: xs, score_lt (f y) (f m) = false := by
  unfold stable_min at h
  injection h with h
  subst h
  obtain ⟨hmem, hb, hall⟩ := stable_min_fold_spec f xs x
  constructor
  · rcases hmem with h | h
    · rw [h]; exact List.mem_cons_self x xs
    · exact List.mem_cons_of_mem _ h
  · intro y hy
    rcases List.mem_cons.1 hy with rfl | hyt
    · exact hb
    · exact hall y hyt

/-- The available-model list consulted by `select` is never empty. -/
theorem select_available_ne_nil (env : Env) (acc : WalkAcc) (name : String) :
    select_available env acc name ≠ [] := by
  unfold select_available
  cases h : acc.provider_available_models name with
  | none => simp
  | some l =>
    by_cases hl : l = [] <;> simp [hl]

/-- The adaptive-round-robin selection behaviour claimed by C7: when
`select` returns a selection, the chosen provider is a candidate minimising
the `(fail_count - success_count, last_selected_at, order index)` tuple over
all candidates, and the chosen model likewise minimises the per-provider
tuple over the provider's available models. -/
def adaptive_min_spec (env : Env) (st : RouterState) (now : Time)
    (exclude : List String) (exclude_models : String → List String) : Prop :=
  let exm := fun p => ((exclude_models p).map py_strip).filter (fun x => x ≠ "")
  let acc := select_candidates env st now (normalize_excluded exclude) exm
  match select env st now exclude exclude_models with
  | .exhausted _ => True
  | .ok sel _ _ =>
    sel.name ∈ acc.candidates ∧
    (∀ c ∈ acc.candidates,
      score_lt (provider_score st c) (provider_score st sel.name) = false) ∧
    sel.model ∈ select_available env acc sel.name ∧
    (∀ m ∈ select_available env acc sel.name,
      score_lt (model_score st sel.name (provider_model_pool env sel.name) m)
        (model_score st sel.name (provider_model_pool env sel.name) sel.model) = false)

/-- C7: in `adaptive_rr` mode, `select` picks the candidate provider with
the minimal `(fail_count - success_count, last_selected_at, order index)`
tuple (ascending lexicographic, earliest on ties) and, within it, the model
with the minimal per-provider tuple over its available models. -/
theorem C7_adaptive_rr_minimizes
    (env : Env) (st : RouterState) (now : Time)
    (exclude : List String) (exclude_models : String → List String)
    (hmode : st.mode = "adaptive_rr") :
    adaptive_min_spec env st now exclude exclude_models := by
  unfold adaptive_min_spec select
  dsimp only
  cases hc : (select_candidates env st now (normalize_excluded exclude)
      (fun p => ((exclude_models p).map py_strip).filter (fun x => x ≠ ""))).candidates with
  | nil => exact trivial
  | cons c cs =>
    unfold select_pick
    simp only [hmode, if_pos]
    obtain ⟨hp_mem, hp_min⟩ := stable_min_mem_min (provider_score st) c cs
      (cs.foldl (fun best cc =>
        if score_lt (provider_score st cc) (provider_score st best) then cc else best) c) rfl
    obtain ⟨a, as, hav⟩ := List.exists_cons_of_ne_nil
      (select_available_ne_nil env
        (select_candidates env st now (normalize_excluded exclude)
          (fun p => ((exclude_models p).map py_strip).filter (fun x => x ≠ "")))
        ((stable_min (provider_score st) (c :: cs)).getD c))
    rw [hav]
    obtain ⟨hm_mem, hm_min⟩ := stable_min_mem_min
      (model_score st ((stable_min (provider_score st) (c :: cs)).getD c)
        (provider_model_pool env ((stable_min (provider_score st) (c :: cs)).getD c)))
      a as
      (as.foldl (fun best mm =>
        if score_lt
            (model_score st ((stable_min (provider_score st) (c :: cs)).getD c)
              (provider_model_pool env ((stable_min (provider_score st) (c :: cs)).getD c)) mm)
            (model_score st ((stable_min (provider_score st) (c :: cs)).getD c)
              (provider_model_pool env ((stable_min (provider_score st) (c :: cs)).getD c)) best)
          then mm else best) a) rfl
    exact ⟨hp_mem, hp_min, hm_mem, hm_min⟩

/-- Environment for the C7 witness: groq and openrouter credentialed. -/
def c7_env : Env := fun k =>
  if k = "DRAGO_GROQ_API_KEY" then some "gk"
  else if k = "DRAGO_OPENROUTER_API_KEY" then some "ok-key" else none

/-- Router state for the C7 witness: provider A (`groq`, first in order) has
`fail_count = 3, success_count = 0`; provider B (`openrouter`) has
`fail_count = 0, success_count = 0`; all else equal. -/
def c7_st : RouterState :=
  { router_init ["groq", "openrouter"] "adaptive_rr" 600 with
    stats := fun k => if k = "groq" then some { Stat.init with fail_count := 3 } else none }

/-- C7 witness: at the concrete A/B state the adaptive selection law holds
and the selected provider is B (`openrouter`), not the failing A. -/
theorem C7_witness :
    c7_st.mode = "adaptive_rr" ∧
    adaptive_min_spec c7_env c7_st 100 [] (fun _ => []) ∧
    select_result_name (select c7_env c7_st 100 [] (fun _ => [])) = "openrouter" :=
  ⟨rfl, C7_adaptive_rr_minimizes c7_env c7_st 100 [] (fun _ => []) rfl, by decide⟩

end Drago
